import Mathlib

/-!
# func-ux-demo: output model and command handlers

A shallow embedding of `src/main.go` and `src/commands.go`.

Standard output is modelled as the sequence of print calls made so far.  Each
call is the list of pieces it writes; a piece is a text together with the
package-level color formatter that wraps it (`plain` for text written by `fmt`
directly).  Handlers thread the output explicitly and return it together with
their `error` result (`none` is Go's `nil`).

The only input the handlers read besides their arguments is the working
directory, through `os.Stat`; it is modelled by a function telling for which
file names `os.Stat` returns a nil error.
-/

set_option linter.unusedVariables false

namespace FuncUxDemo

/-! ## Output model -/

/-- The color formatters declared at package level in `main.go`; `plain` stands
for text written without any formatter. -/
inductive Style where
  | plain
  | errorColor
  | warningColor
  | successColor
  | commandColor
  | flagColor
  | exampleColor
  | descriptionColor
  | headerColor
  deriving DecidableEq, Repr

/-- A run of text and the formatter wrapping it. -/
structure Piece where
  style : Style
  text : String
  deriving DecidableEq, Repr

/-- The pieces written by one call to a print function. -/
abbrev Call := List Piece

/-- Standard output: the print calls made so far, oldest first. -/
abbrev Stdout := List Call

/-- Text written by `fmt` without a formatter. -/
def txt (s : String) : Piece := ⟨Style.plain, s⟩

/-- The value of `c.Sprint(s)` and of `c.Sprintf(...)` once formatted to `s`. -/
def Sprint (c : Style) (s : String) : Piece := ⟨c, s⟩

/-- The call `fmt.Println()`. -/
def fmtPrintln (out : Stdout) : Stdout := out ++ [[txt "\n"]]

/-- The call `fmt.Printf(...)` or `fmt.Println(...)`, its format already cut
into pieces at the arguments. -/
def fmtPrintf (pieces : List Piece) (out : Stdout) : Stdout := out ++ [pieces]

/-- The call `c.Printf(...)`, formatted to `s`: the whole text is wrapped. -/
def colorPrintf (c : Style) (s : String) (out : Stdout) : Stdout := out ++ [[⟨c, s⟩]]

/-- The call `c.Println(s)`: the text and its newline are wrapped. -/
def colorPrintln (c : Style) (s : String) (out : Stdout) : Stdout :=
  out ++ [[⟨c, s ++ "\n"⟩]]

/-- The verb `%-10s` and its like: pad with spaces on the right up to `w`
characters, never truncating. -/
def padRight (w : Nat) (s : String) : String :=
  s ++ String.mk (List.replicate (w - s.length) ' ')

/-- What a handler leaves behind: the output and the returned `error`. -/
structure Result where
  out : Stdout
  err : Option String
  deriving DecidableEq, Repr

/-! ## Presentation layer (`main.go`) -/

/-- `showEnhancedError` of `main.go`. -/
def showEnhancedError (title details : String) (suggestions : List String)
    (out : Stdout) : Stdout :=
  let out := fmtPrintln out
  let out := colorPrintf Style.errorColor ("âœ— Error: " ++ title ++ "\n") out
  let out := fmtPrintln out
  let out :=
    if details ≠ "" then
      let out := fmtPrintf [txt ("  " ++ details ++ "\n")] out
      fmtPrintln out
    else out
  let out :=
    if suggestions.length > 0 then
      let out := colorPrintln Style.warningColor "ðŸ’¡ Suggestions:" out
      let out := suggestions.foldl
        (fun out suggestion => fmtPrintf [txt ("  â€¢ " ++ suggestion ++ "\n")] out) out
      fmtPrintln out
    else out
  out

/-- `CommandInfo` of `main.go`: one row of a help category. -/
structure CommandInfo where
  Name : String
  Description : String
  deriving DecidableEq, Repr

/-- `printCommandCategory` of `main.go`. -/
def printCommandCategory (category : String) (commands : List CommandInfo)
    (out : Stdout) : Stdout :=
  let out := colorPrintf Style.commandColor ("  " ++ category ++ ":\n") out
  let out := commands.foldl
    (fun out cmd => fmtPrintf
      [txt "    ", Sprint Style.flagColor (padRight 10 cmd.Name), txt "  ",
        Sprint Style.descriptionColor cmd.Description, txt "\n"] out) out
  fmtPrintln out

/-- `showWorkflowHelp` of `main.go`. -/
def showWorkflowHelp (out : Stdout) : Stdout :=
  let out := fmtPrintln out
  let out := colorPrintln Style.headerColor "KNATIVE FUNCTIONS CLI" out
  let out := fmtPrintln out
  let out := fmtPrintf [Sprint Style.headerColor "USAGE", txt "\n"] out
  let out := fmtPrintf [txt "    ", Sprint Style.flagColor "func <command> [options]", txt "\n"] out
  let out := fmtPrintln out
  let out := printCommandCategory "GETTING STARTED" [
    ⟨"create", "Create a new function from template"⟩,
    ⟨"run", "Run function locally for development"⟩,
    ⟨"invoke", "Test function with sample data"⟩] out
  let out := printCommandCategory "DEPLOYMENT" [
    ⟨"build", "Build function container image"⟩,
    ⟨"deploy", "Deploy function to Kubernetes cluster"⟩,
    ⟨"delete", "Remove function from cluster"⟩] out
  let out := printCommandCategory "MANAGEMENT" [
    ⟨"list", "List deployed functions"⟩,
    ⟨"describe", "Show detailed function information"⟩,
    ⟨"logs", "View function execution logs"⟩] out
  let out := printCommandCategory "CONFIGURATION" [
    ⟨"config", "Manage function configuration"⟩,
    ⟨"subscribe", "Configure event subscriptions"⟩] out
  let out := printCommandCategory "UTILITY COMMANDS" [
    ⟨"languages", "List supported runtimes"⟩,
    ⟨"templates", "List available templates"⟩,
    ⟨"version", "Show version information"⟩] out
  let out := fmtPrintf
    [txt "Use ", Sprint Style.exampleColor "func <command> --help",
      txt " for detailed information about each command.\n"] out
  fmtPrintln out

/-- The categories and rows that `showWorkflowHelp` hands to
`printCommandCategory`, in call order. -/
def helpTable : List (String × List CommandInfo) := [
  ("GETTING STARTED", [
    ⟨"create", "Create a new function from template"⟩,
    ⟨"run", "Run function locally for development"⟩,
    ⟨"invoke", "Test function with sample data"⟩]),
  ("DEPLOYMENT", [
    ⟨"build", "Build function container image"⟩,
    ⟨"deploy", "Deploy function to Kubernetes cluster"⟩,
    ⟨"delete", "Remove function from cluster"⟩]),
  ("MANAGEMENT", [
    ⟨"list", "List deployed functions"⟩,
    ⟨"describe", "Show detailed function information"⟩,
    ⟨"logs", "View function execution logs"⟩]),
  ("CONFIGURATION", [
    ⟨"config", "Manage function configuration"⟩,
    ⟨"subscribe", "Configure event subscriptions"⟩]),
  ("UTILITY COMMANDS", [
    ⟨"languages", "List supported runtimes"⟩,
    ⟨"templates", "List available templates"⟩,
    ⟨"version", "Show version information"⟩])]

/-- The command names of the help table, in display order. -/
def helpNames : List String :=
  (helpTable.flatMap fun c => c.2).map fun cmd => cmd.Name

/-! ## Helpers (`commands.go`) -/

/-- `contains` of `commands.go`: linear search. -/
def contains : List String → String → Bool
  | [], _ => false
  | s :: slice, item => if s = item then true else contains slice item

/-- `getRunMode` of `commands.go`. -/
def getRunMode (container : Bool) : String :=
  if container then "Container" else "Source"

/-- `isInFunctionDirectory` of `commands.go`; `stat name` tells whether
`os.Stat(name)` returns a nil error in the working directory. -/
def isInFunctionDirectory (stat : String → Bool) : Bool :=
  if stat "func.yaml" then true
  else
    let files := ["package.json", "go.mod", "requirements.txt", "pom.xml"]
    let rec loop : List String → Bool
      | [] => false
      | file :: rest => if stat file then true else loop rest
    loop files

/-! ## Command handlers (`commands.go`) -/

/-- `runCreateDemo` of `commands.go`. -/
def runCreateDemo (args : List String) (language template registry : String)
    (out : Stdout) : Result :=
  let name :=
    match args with
    | a :: _ => a
    | [] => "my-function"
  let validLanguages := ["go", "python", "node", "java", "rust"]
  if !contains validLanguages language then
    ⟨out, some ("invalid language '" ++ language ++ "'")⟩
  else
    let out := fmtPrintln out
    let out := colorPrintf Style.successColor ("✓ Created function project: " ++ name ++ "\n") out
    let out := fmtPrintf [txt "  Language: ", Sprint Style.flagColor language, txt "\n"] out
    let out := fmtPrintf [txt "  Template: ", Sprint Style.flagColor template, txt "\n"] out
    let out :=
      if registry ≠ "" then
        fmtPrintf [txt "  Registry: ", Sprint Style.flagColor registry, txt "\n"] out
      else out
    let out := fmtPrintln out
    let out := colorPrintln Style.warningColor "🔄 Next Steps:" out
    let out := fmtPrintf [txt "  1. ", Sprint Style.exampleColor ("cd " ++ name), txt "\n"] out
    let out := fmtPrintf
      [txt "  2. ", Sprint Style.exampleColor "func-ux-demo run --help", txt "\n"] out
    let out := fmtPrintf [txt "  3. ", Sprint Style.exampleColor "func-ux-demo run", txt "\n"] out
    let out := fmtPrintln out
    ⟨out, none⟩

/-- `runRunDemo` of `commands.go`. -/
def runRunDemo (stat : String → Bool) (container : Bool)
    (build registry address builder : String) (out : Stdout) : Result :=
  if !isInFunctionDirectory stat then
    let out := showEnhancedError
      "Not in function directory"
      "This command must be run from within a function project directory."
      ["Run 'func-ux-demo create' to create a new function",
        "Navigate to an existing function directory",
        "Use 'func-ux-demo info' to verify function project"] out
    ⟨out, some "not in function directory"⟩
  else
    let (container, out) :=
      if builder = "pack" ∧ !container then
        let out := colorPrintln Style.warningColor "⚠️  Pack builder requires container mode" out
        let out := fmtPrintf
          [txt "   Automatically enabling ", Sprint Style.flagColor "--container=true",
            txt "\n"] out
        (true, out)
      else (container, out)
    let out := fmtPrintln out
    let out := colorPrintln Style.successColor "🚀 Starting function..." out
    let out := fmtPrintf
      [txt "  Mode: ", Sprint Style.flagColor (getRunMode container), txt "\n"] out
    let out := fmtPrintf [txt "  Builder: ", Sprint Style.flagColor builder, txt "\n"] out
    let out := fmtPrintf [txt "  Address: ", Sprint Style.flagColor address, txt "\n"] out
    let out := fmtPrintln out
    let out := colorPrintf Style.successColor ("✓ Function running on " ++ address ++ "\n") out
    let out := fmtPrintf
      [txt "  ", Sprint Style.exampleColor ("curl http://" ++ address), txt "\n"] out
    let out := fmtPrintf [txt "  ", Sprint Style.exampleColor "func-ux-demo invoke", txt "\n"] out
    let out := fmtPrintln out
    ⟨out, none⟩

/-- `runDeployDemo` of `commands.go`; `ns` is its `namespace` parameter. -/
def runDeployDemo (stat : String → Bool) (registry ns : String) (build : Bool)
    (out : Stdout) : Result :=
  if !isInFunctionDirectory stat then
    let out := showEnhancedError
      "Not in function directory"
      "This command must be run from within a function project directory."
      ["Run 'func-ux-demo create' to create a new function",
        "Navigate to an existing function directory"] out
    ⟨out, some "not in function directory"⟩
  else
    let out := fmtPrintln out
    let out := colorPrintln Style.successColor "🚀 Deploying function..." out
    let out :=
      if build then
        let out := fmtPrintf
          [txt "  ", Sprint Style.warningColor "⏳", txt " Building container image...\n"] out
        fmtPrintf
          [txt "  ", Sprint Style.warningColor "⏳", txt " Pushing to ",
            Sprint Style.flagColor registry, txt "...\n"] out
      else out
    let out := fmtPrintf
      [txt "  ", Sprint Style.warningColor "⏳", txt " Deploying to Kubernetes...\n"] out
    let out :=
      if ns ≠ "" then
        fmtPrintf [txt "  Namespace: ", Sprint Style.flagColor ns, txt "\n"] out
      else out
    let out := fmtPrintln out
    let out := colorPrintln Style.successColor "✓ Function deployed successfully!" out
    let out := fmtPrintf
      [txt "  URL: ", Sprint Style.exampleColor "https://my-function.example.com", txt "\n"] out
    let out := fmtPrintf
      [txt "  Test: ",
        Sprint Style.exampleColor "func-ux-demo invoke --target https://my-function.example.com",
        txt "\n"] out
    let out := fmtPrintln out
    ⟨out, none⟩

/-- Modelled from the spec: the required-flag enforcement of the command
framework, whose code is not part of the repository.  `deployDemoCommand` of
`commands.go` registers `--registry` (default `""`), `--namespace` (default `""`)
and `--build` (default `true`), marks `registry` required and runs
`runDeployDemo` on the flag values.  A flag is `none` when it is not on the
command line; the framework refuses to run the handler when a required flag is
not set, whatever value a flag that is set carries. -/
def deployDemoCommand (stat : String → Bool) (registry ns : Option String)
    (build : Option Bool) (out : Stdout) : Result :=
  match registry with
  | none => ⟨out, some "required flag(s) \"registry\" not set"⟩
  | some r => runDeployDemo stat r (ns.getD "") (build.getD true) out

/-- `runInvokeDemo` of `commands.go`. -/
def runInvokeDemo (stat : String → Bool) (target data contentType : String)
    (out : Stdout) : Result :=
  if target = "" ∧ !isInFunctionDirectory stat then
    let out := showEnhancedError
      "No function to invoke"
      "No target specified and not in a function directory."
      ["Use --target to specify a deployed function URL",
        "Run from a function directory to invoke locally",
        "Start local function with 'func-ux-demo run'"] out
    ⟨out, some "no function to invoke"⟩
  else
    let invokeTarget := target
    let invokeTarget := if invokeTarget = "" then "http://localhost:8080" else invokeTarget
    let out := fmtPrintln out
    let out := colorPrintf Style.successColor ("🔥 Invoking function: " ++ invokeTarget ++ "\n") out
    let out := fmtPrintf [txt "  Data: ", Sprint Style.flagColor data, txt "\n"] out
    let out := fmtPrintf
      [txt "  Content-Type: ", Sprint Style.flagColor contentType, txt "\n"] out
    let out := fmtPrintln out
    let out := colorPrintln Style.successColor "✓ Response received:" out
    let out := fmtPrintf [txt "  Status: ", Sprint Style.successColor "200 OK", txt "\n"] out
    let out := fmtPrintf
      [txt "  Body: ", Sprint Style.exampleColor "\x7b\"message\": \"Hello, World!\"\x7d",
        txt "\n"] out
    let out := fmtPrintln out
    ⟨out, none⟩

/-- `runErrorDemo` of `commands.go`; the `switch` tries its cases in order. -/
def runErrorDemo (errorType : String) (out : Stdout) : Result :=
  let out := fmtPrintf
    [txt "\n", Sprint Style.warningColor "🎭", txt " Demonstrating: ",
      Sprint Style.commandColor errorType, txt "\n\n"] out
  let out :=
    if errorType = "missing-function" then
      showEnhancedError
        "No function found in current directory"
        "This directory does not contain an initialized function project."
        ["Create a new function:    func create --language go --template http <name>",
          "Navigate to existing function: cd /path/to/function",
          "Specify function path:     func invoke --path /path/to/function",
          "",
          "Run 'func create --help' for more information about creating functions."] out
    else if errorType = "invalid-flag" then
      showEnhancedError
        "Unknown flag '--invalid-flag'"
        "The flag '--invalid-flag' is not recognized for this command."
        ["Use --help to see available flags",
          "Did you mean: --build, --builder, or --registry?",
          "Check flag spelling and format"] out
    else if errorType = "missing-registry" then
      showEnhancedError
        "Container registry required"
        "A container registry is required to store function images during deployment."
        ["Command flag:    func deploy --registry docker.io/username",
          "Environment:     export FUNC_REGISTRY=docker.io/username",
          "Interactive:     func deploy --confirm",
          "",
          "Popular registry options:",
          "• Docker Hub:      docker.io/username",
          "• GitHub:          ghcr.io/username",
          "• Google Cloud:    gcr.io/project-id",
          "• Azure:           username.azurecr.io",
          "",
          "Run 'func config --help' for persistent configuration options."] out
    else if errorType = "flag-conflict" then
      showEnhancedError
        "Invalid flag combination"
        "The --builder=pack option requires container execution, but --container=false was specified."
        ["Remove --container=false:     func run --builder=pack",
          "Use host builder:             func run --container=false --builder=host",
          "Use default configuration:    func run",
          "",
          "Note: Pack and S2I builders require container execution. Use 'host' builder for non-containerized runs."]
        out
    else if errorType = "deploy-no-function" then
      showEnhancedError
        "No function project found"
        "This directory doesn't contain a function project that can be deployed."
        ["Create a new function here:     func create --language python --template http myfunction",
          "Go to existing function:       cd /path/to/your/function",
          "Deploy from specific path:     func deploy --path /path/to/function",
          "",
          "What is a function project?",
          "A function project contains your code, configuration files, and metadata that",
          "func needs to build and deploy your function.",
          "",
          "Examples of creating functions:",
          "  func create --language go --template http my-go-func",
          "  func create --language node --template cloudevent my-node-func",
          "  func create --language python --template http my-python-func",
          "",
          "Run 'func create --help' to see all available languages and templates."] out
    else
      showEnhancedError
        "Unknown error type"
        ("Error type '" ++ errorType ++ "' is not recognized.")
        ["Available types: missing-function, invalid-flag, missing-registry, flag-conflict, deploy-no-function",
          "Use: func-ux-demo error-demo --help"] out
  ⟨out, none⟩

/-- The five marker files probed by `isInFunctionDirectory`, in probe order. -/
def markerFiles : List String :=
  ["func.yaml", "package.json", "go.mod", "requirements.txt", "pom.xml"]

/-- The name column of a help row: the text of the second piece of a call made
of five pieces, which is how `printCommandCategory` writes a row. -/
def nameColumn (c : Call) : Option String :=
  match c with
  | [_, name, _, _, _] => some name.text
  | _ => none

/-- Whether a call is a suggestion bullet: one uncolored piece whose text starts
with the bullet marker written by `showEnhancedError`. -/
def isBulletCall (c : Call) : Bool :=
  match c with
  | [p] => decide (p.style = Style.plain) && ("  â€¢ ".data).isPrefixOf p.text.data
  | _ => false

/-! ## Shared lemmas -/

theorem contains_iff (slice : List String) (item : String) :
    contains slice item = true ↔ item ∈ slice := by
  induction slice with
  | nil => simp [contains]
  | cons s slice ih =>
    by_cases h : s = item
    · simp [contains, h]
    · have h2 : ¬ item = s := fun e => h e.symm
      simp [contains, h, h2, ih]

theorem foldl_fmtPrintf (f : String → Call) (suggestions : List String) (out : Stdout) :
    suggestions.foldl (fun out suggestion => fmtPrintf (f suggestion) out) out =
      out ++ suggestions.map f := by
  induction suggestions generalizing out with
  | nil => simp
  | cons s rest ih =>
    rw [List.foldl_cons, ih]
    simp [fmtPrintf]

theorem showEnhancedError_eq (title details : String) (suggestions : List String)
    (out : Stdout) :
    showEnhancedError title details suggestions out =
      out ++ [[txt "\n"], [Sprint Style.errorColor ("âœ— Error: " ++ title ++ "\n")], [txt "\n"]]
        ++ (if details = "" then [] else [[txt ("  " ++ details ++ "\n")], [txt "\n"]])
        ++ (if suggestions = [] then []
            else [[Sprint Style.warningColor "ðŸ’¡ Suggestions:\n"]]
              ++ suggestions.map (fun s => [txt ("  â€¢ " ++ s ++ "\n")])
              ++ [[txt "\n"]]) := by
  unfold showEnhancedError
  simp only [foldl_fmtPrintf]
  by_cases hd : details = "" <;> cases suggestions <;>
    simp [hd, fmtPrintln, fmtPrintf, colorPrintf, colorPrintln, Sprint]

theorem bullet_ne_indent (s : String) : ¬ ("  â€¢ " ++ s ++ "\n" = "  \n") := by
  intro h
  have h2 := congrArg String.data h
  simp [String.data_append] at h2

theorem isInFunctionDirectory_eq (stat : String → Bool) :
    isInFunctionDirectory stat =
      (stat "func.yaml" || stat "package.json" || stat "go.mod" || stat "requirements.txt"
        || stat "pom.xml") := by
  simp only [isInFunctionDirectory, isInFunctionDirectory.loop]
  cases stat "func.yaml" <;> cases stat "package.json" <;> cases stat "go.mod" <;>
    cases stat "requirements.txt" <;> cases stat "pom.xml" <;> rfl

theorem showEnhancedError_append (title details : String) (suggestions : List String)
    (out : Stdout) :
    showEnhancedError title details suggestions out =
      out ++ showEnhancedError title details suggestions [] := by
  rw [showEnhancedError_eq, showEnhancedError_eq title details suggestions []]
  simp

theorem runErrorDemo_append (errorType : String) (out : Stdout) :
    runErrorDemo errorType out = ⟨out ++ (runErrorDemo errorType []).out, none⟩ := by
  simp only [runErrorDemo, fmtPrintf]
  split_ifs <;>
    · rw [showEnhancedError_append]
      conv_rhs => rw [showEnhancedError_append]
      simp

/-! ## Claims -/

/-- C10: `showEnhancedError` appends, in this order, the title block (always),
the explanation block (exactly when `details` is non-empty) and the suggestions
block (exactly when the list is non-empty): the header, then one bullet call per
list element in list order, so as many bullet calls as the list is long. -/
theorem showEnhancedError_layout (title details : String) (suggestions : List String)
    (out : Stdout) :
    showEnhancedError title details suggestions out =
      out ++ [[txt "\n"], [Sprint Style.errorColor ("âœ— Error: " ++ title ++ "\n")], [txt "\n"]]
        ++ (if details = "" then [] else [[txt ("  " ++ details ++ "\n")], [txt "\n"]])
        ++ (if suggestions = [] then []
            else [[Sprint Style.warningColor "ðŸ’¡ Suggestions:\n"]]
              ++ suggestions.map (fun s => [txt ("  â€¢ " ++ s ++ "\n")])
              ++ [[txt "\n"]]) ∧
    (suggestions.map (fun s => [txt ("  â€¢ " ++ s ++ "\n")])).length = suggestions.length ∧
    ([Sprint Style.errorColor ("âœ— Error: " ++ title ++ "\n")] ∈
      showEnhancedError title details suggestions []) ∧
    ([txt ("  " ++ details ++ "\n")] ∈ showEnhancedError title details suggestions [] ↔
      details ≠ "") ∧
    ([Sprint Style.warningColor "ðŸ’¡ Suggestions:\n"] ∈
      showEnhancedError title details suggestions [] ↔ suggestions ≠ []) := by
  refine ⟨showEnhancedError_eq _ _ _ _, by simp, ?_, ?_, ?_⟩
  · rw [showEnhancedError_eq]; simp
  · rw [showEnhancedError_eq]
    by_cases hd : details = ""
    · subst hd
      by_cases hs : suggestions = []
      · simp [hs, txt, Sprint]
      · have hb := bullet_ne_indent
        simp [hs, txt, Sprint, hb]
    · simp [hd]
  · rw [showEnhancedError_eq]
    by_cases hs : suggestions = []
    · subst hs
      by_cases hd : details = "" <;> simp [hd, txt, Sprint]
    · simp [hs]

/-- C1: `runCreateDemo` returns an error exactly when the language is not one of
go, python, node, java, rust; the error is then `invalid language '<language>'`
and the output is left untouched. -/
theorem runCreateDemo_error_iff (args : List String) (language template registry : String)
    (out : Stdout) :
    ((runCreateDemo args language template registry out).err ≠ none ↔
      language ∉ ["go", "python", "node", "java", "rust"]) ∧
    (language ∉ ["go", "python", "node", "java", "rust"] →
      runCreateDemo args language template registry out =
        ⟨out, some ("invalid language '" ++ language ++ "'")⟩) := by
  have hc := contains_iff ["go", "python", "node", "java", "rust"] language
  by_cases h : contains ["go", "python", "node", "java", "rust"] language = true
  · have hm := hc.mp h
    simp only [runCreateDemo, h]
    exact ⟨by simp [hm], fun hn => absurd hm hn⟩
  · have hm : language ∉ ["go", "python", "node", "java", "rust"] := fun hm => h (hc.mpr hm)
    have hf : contains ["go", "python", "node", "java", "rust"] language = false := by
      simpa using h
    simp only [runCreateDemo, hf]
    exact ⟨by simp [hm], fun _ => by simp⟩

theorem runCreateDemo_error_iff_witness :
    "cobol" ∉ ["go", "python", "node", "java", "rust"] ∧
    runCreateDemo ["api"] "cobol" "http" "" [] = ⟨[], some "invalid language 'cobol'"⟩ :=
  ⟨by decide, (runCreateDemo_error_iff ["api"] "cobol" "http" "" []).2 (by decide)⟩

/-- C7: with a valid language `runCreateDemo` returns nil and appends exactly the
success narrative: the project name (`args[0]`, or `my-function` without an
argument), then the language, template and registry values unmodified inside
the flag color on their lines, the Registry line present exactly when the
registry is non-empty. -/
theorem runCreateDemo_success (args : List String) (language template registry : String)
    (out : Stdout) (h : language ∈ ["go", "python", "node", "java", "rust"]) :
    runCreateDemo args language template registry out =
      ⟨out ++ [[txt "\n"],
          [Sprint Style.successColor
            ("✓ Created function project: " ++ args.headD "my-function" ++ "\n")],
          [txt "  Language: ", Sprint Style.flagColor language, txt "\n"],
          [txt "  Template: ", Sprint Style.flagColor template, txt "\n"]]
        ++ (if registry = "" then []
            else [[txt "  Registry: ", Sprint Style.flagColor registry, txt "\n"]])
        ++ [[txt "\n"],
          [Sprint Style.warningColor "🔄 Next Steps:\n"],
          [txt "  1. ", Sprint Style.exampleColor ("cd " ++ args.headD "my-function"), txt "\n"],
          [txt "  2. ", Sprint Style.exampleColor "func-ux-demo run --help", txt "\n"],
          [txt "  3. ", Sprint Style.exampleColor "func-ux-demo run", txt "\n"],
          [txt "\n"]], none⟩ ∧
    ([txt "  Registry: ", Sprint Style.flagColor registry, txt "\n"] ∈
      (runCreateDemo args language template registry []).out ↔ registry ≠ "") := by
  have hc := (contains_iff ["go", "python", "node", "java", "rust"] language).mpr h
  have hn : (match args with | a :: _ => a | [] => "my-function") = args.headD "my-function" := by
    cases args <;> rfl
  constructor
  · simp only [runCreateDemo, hc, hn]
    by_cases hr : registry = "" <;>
      simp [hr, fmtPrintln, fmtPrintf, colorPrintf, colorPrintln, Sprint]
  · simp only [runCreateDemo, hc, hn]
    by_cases hr : registry = "" <;>
      simp [hr, fmtPrintln, fmtPrintf, colorPrintf, colorPrintln, Sprint, txt]

theorem runCreateDemo_success_witness :
    "node" ∈ ["go", "python", "node", "java", "rust"] ∧
    runCreateDemo ["api-func"] "node" "http" "ghcr.io/myorg" [] =
      ⟨[[txt "\n"],
        [Sprint Style.successColor "✓ Created function project: api-func\n"],
        [txt "  Language: ", Sprint Style.flagColor "node", txt "\n"],
        [txt "  Template: ", Sprint Style.flagColor "http", txt "\n"],
        [txt "  Registry: ", Sprint Style.flagColor "ghcr.io/myorg", txt "\n"],
        [txt "\n"],
        [Sprint Style.warningColor "🔄 Next Steps:\n"],
        [txt "  1. ", Sprint Style.exampleColor "cd api-func", txt "\n"],
        [txt "  2. ", Sprint Style.exampleColor "func-ux-demo run --help", txt "\n"],
        [txt "  3. ", Sprint Style.exampleColor "func-ux-demo run", txt "\n"],
        [txt "\n"]], none⟩ :=
  ⟨by decide, by
    have h := (runCreateDemo_success ["api-func"] "node" "http" "ghcr.io/myorg" []
      (by decide)).1
    rw [h]
    decide⟩

/-- C4: `isInFunctionDirectory` is true exactly when `os.Stat` succeeds on at
least one of func.yaml, package.json, go.mod, requirements.txt, pom.xml; two
directories that agree on these five names give the same result, whatever
other files they hold. -/
theorem isInFunctionDirectory_iff (stat : String → Bool) :
    (isInFunctionDirectory stat = true ↔
      ∃ f ∈ ["func.yaml", "package.json", "go.mod", "requirements.txt", "pom.xml"],
        stat f = true) ∧
    (∀ other : String → Bool,
      (∀ f ∈ ["func.yaml", "package.json", "go.mod", "requirements.txt", "pom.xml"],
        other f = stat f) →
      isInFunctionDirectory other = isInFunctionDirectory stat) := by
  constructor
  · rw [isInFunctionDirectory_eq]
    simp [or_assoc]
  · intro other hagree
    rw [isInFunctionDirectory_eq, isInFunctionDirectory_eq]
    simp only [List.mem_cons, List.mem_singleton, List.not_mem_nil, or_false] at hagree
    rw [hagree "func.yaml" (by simp), hagree "package.json" (by simp),
      hagree "go.mod" (by simp), hagree "requirements.txt" (by simp),
      hagree "pom.xml" (by simp)]

theorem isInFunctionDirectory_iff_witness :
    isInFunctionDirectory (fun f => f = "go.mod" || f = "README.md") =
      isInFunctionDirectory (fun f => f = "go.mod" || f = "main.go") :=
  (isInFunctionDirectory_iff (fun f => f = "go.mod" || f = "main.go")).2
    (fun f => f = "go.mod" || f = "README.md") (by decide)

/-- C5: `runInvokeDemo` returns an error exactly when the target is empty and the
function-directory check is false, so a non-empty target succeeds in any
directory; on success it reports the given target (`http://localhost:8080` for
an empty one) and the same canned response, status `200 OK` and body
`{"message": "Hello, World!"}`, whatever the data and content type. -/
theorem runInvokeDemo_spec (stat : String → Bool) (target data contentType : String)
    (out : Stdout) :
    ((runInvokeDemo stat target data contentType out).err ≠ none ↔
      (target = "" ∧ isInFunctionDirectory stat = false)) ∧
    (target ≠ "" → (runInvokeDemo stat target data contentType out).err = none) ∧
    (¬ (target = "" ∧ isInFunctionDirectory stat = false) →
      runInvokeDemo stat target data contentType out =
        ⟨out ++ [[txt "\n"],
            [Sprint Style.successColor
              ("🔥 Invoking function: "
                ++ (if target = "" then "http://localhost:8080" else target) ++ "\n")],
            [txt "  Data: ", Sprint Style.flagColor data, txt "\n"],
            [txt "  Content-Type: ", Sprint Style.flagColor contentType, txt "\n"],
            [txt "\n"]]
          ++ [[Sprint Style.successColor "✓ Response received:\n"],
            [txt "  Status: ", Sprint Style.successColor "200 OK", txt "\n"],
            [txt "  Body: ",
              Sprint Style.exampleColor "\x7b\"message\": \"Hello, World!\"\x7d", txt "\n"],
            [txt "\n"]], none⟩) := by
  by_cases ht : target = ""
  · subst ht
    cases hd : isInFunctionDirectory stat <;>
      simp [runInvokeDemo, hd, fmtPrintln, fmtPrintf, colorPrintf, colorPrintln, Sprint]
  · cases hd : isInFunctionDirectory stat <;>
      simp [runInvokeDemo, hd, ht, fmtPrintln, fmtPrintf, colorPrintf, colorPrintln, Sprint]

theorem runInvokeDemo_spec_witness :
    "https://my-function.example.com" ≠ "" ∧
    (runInvokeDemo (fun _ => false) "https://my-function.example.com" "\x7b\x7d"
      "application/json" []).err = none :=
  ⟨by decide,
    (runInvokeDemo_spec (fun _ => false) "https://my-function.example.com" "\x7b\x7d"
      "application/json" []).2.1 (by decide)⟩

/-- C2: inside a function directory, `runRunDemo` with builder `pack` and
`container = false` prints the two override-warning calls and then behaves
exactly as with `container = true`: same remaining output, same nil result,
Mode `Container`.  With any other builder no warning call is printed and the
Mode line shows the container value as given. -/
theorem runRunDemo_pack_override (stat : String → Bool) (build registry address : String)
    (out : Stdout) (hdir : isInFunctionDirectory stat = true) :
    runRunDemo stat false build registry address "pack" out =
      runRunDemo stat true build registry address "pack"
        (out ++ [[Sprint Style.warningColor "⚠️  Pack builder requires container mode\n"],
          [txt "   Automatically enabling ", Sprint Style.flagColor "--container=true",
            txt "\n"]]) ∧
    (runRunDemo stat false build registry address "pack" []).out =
      [[Sprint Style.warningColor "⚠️  Pack builder requires container mode\n"],
        [txt "   Automatically enabling ", Sprint Style.flagColor "--container=true", txt "\n"]]
      ++ (runRunDemo stat true build registry address "pack" []).out ∧
    (runRunDemo stat true build registry address "pack" out).err = none ∧
    [txt "  Mode: ", Sprint Style.flagColor "Container", txt "\n"] ∈
      (runRunDemo stat false build registry address "pack" out).out ∧
    (∀ (builder : String) (container : Bool), builder ≠ "pack" →
      runRunDemo stat container build registry address builder out =
        ⟨out ++ [[txt "\n"],
          [Sprint Style.successColor "🚀 Starting function...\n"],
          [txt "  Mode: ", Sprint Style.flagColor (if container then "Container" else "Source"),
            txt "\n"],
          [txt "  Builder: ", Sprint Style.flagColor builder, txt "\n"],
          [txt "  Address: ", Sprint Style.flagColor address, txt "\n"],
          [txt "\n"],
          [Sprint Style.successColor ("✓ Function running on " ++ address ++ "\n")],
          [txt "  ", Sprint Style.exampleColor ("curl http://" ++ address), txt "\n"],
          [txt "  ", Sprint Style.exampleColor "func-ux-demo invoke", txt "\n"],
          [txt "\n"]], none⟩ ∧
      [Sprint Style.warningColor "⚠️  Pack builder requires container mode\n"] ∉
        (runRunDemo stat container build registry address builder []).out ∧
      [txt "   Automatically enabling ", Sprint Style.flagColor "--container=true", txt "\n"] ∉
        (runRunDemo stat container build registry address builder []).out) := by
  refine ⟨?_, ?_, ?_, ?_, ?_⟩
  · simp [runRunDemo, hdir, getRunMode, fmtPrintln, fmtPrintf, colorPrintf, colorPrintln, Sprint]
  · simp [runRunDemo, hdir, getRunMode, fmtPrintln, fmtPrintf, colorPrintf, colorPrintln, Sprint]
  · simp [runRunDemo, hdir]
  · simp [runRunDemo, hdir, getRunMode, fmtPrintln, fmtPrintf, colorPrintf, colorPrintln, Sprint]
  · intro builder container hb
    refine ⟨?_, ?_, ?_⟩
    · simp [runRunDemo, hdir, hb, getRunMode, fmtPrintln, fmtPrintf, colorPrintf, colorPrintln,
        Sprint]
    · simp [runRunDemo, hdir, hb, getRunMode, fmtPrintln, fmtPrintf, colorPrintf, colorPrintln,
        Sprint, txt]
    · simp [runRunDemo, hdir, hb, getRunMode, fmtPrintln, fmtPrintf, colorPrintf, colorPrintln,
        Sprint, txt]

theorem runRunDemo_pack_override_witness :
    isInFunctionDirectory (fun f => f = "func.yaml") = true ∧
    (runRunDemo (fun f => f = "func.yaml") false "auto" "" "localhost:8080" "pack" []).out =
      [[Sprint Style.warningColor "⚠️  Pack builder requires container mode\n"],
        [txt "   Automatically enabling ", Sprint Style.flagColor "--container=true", txt "\n"]]
      ++ (runRunDemo (fun f => f = "func.yaml") true "auto" "" "localhost:8080" "pack" []).out :=
  ⟨by decide,
    (runRunDemo_pack_override (fun f => f = "func.yaml") "auto" "" "localhost:8080" []
      (by decide)).2.1⟩

/-- C9: `showWorkflowHelp` prints exactly the rows below under the five
categories; the name columns of the printed rows are the 14 command names of the
help table, each padded by `%-10s`; the names are pairwise distinct, within and
across categories, and so are the printed columns; every name is at most 10
characters long and every printed name column is exactly 10 characters long. -/
theorem helpTable_names_unique :
    showWorkflowHelp [] =
      [[txt "\n"],
        [Sprint Style.headerColor "KNATIVE FUNCTIONS CLI\n"],
        [txt "\n"],
        [Sprint Style.headerColor "USAGE", txt "\n"],
        [txt "    ", Sprint Style.flagColor "func <command> [options]", txt "\n"],
        [txt "\n"],
        [Sprint Style.commandColor "  GETTING STARTED:\n"],
        [txt "    ", Sprint Style.flagColor "create    ", txt "  ",
          Sprint Style.descriptionColor "Create a new function from template", txt "\n"],
        [txt "    ", Sprint Style.flagColor "run       ", txt "  ",
          Sprint Style.descriptionColor "Run function locally for development", txt "\n"],
        [txt "    ", Sprint Style.flagColor "invoke    ", txt "  ",
          Sprint Style.descriptionColor "Test function with sample data", txt "\n"],
        [txt "\n"],
        [Sprint Style.commandColor "  DEPLOYMENT:\n"],
        [txt "    ", Sprint Style.flagColor "build     ", txt "  ",
          Sprint Style.descriptionColor "Build function container image", txt "\n"],
        [txt "    ", Sprint Style.flagColor "deploy    ", txt "  ",
          Sprint Style.descriptionColor "Deploy function to Kubernetes cluster", txt "\n"],
        [txt "    ", Sprint Style.flagColor "delete    ", txt "  ",
          Sprint Style.descriptionColor "Remove function from cluster", txt "\n"],
        [txt "\n"],
        [Sprint Style.commandColor "  MANAGEMENT:\n"],
        [txt "    ", Sprint Style.flagColor "list      ", txt "  ",
          Sprint Style.descriptionColor "List deployed functions", txt "\n"],
        [txt "    ", Sprint Style.flagColor "describe  ", txt "  ",
          Sprint Style.descriptionColor "Show detailed function information", txt "\n"],
        [txt "    ", Sprint Style.flagColor "logs      ", txt "  ",
          Sprint Style.descriptionColor "View function execution logs", txt "\n"],
        [txt "\n"],
        [Sprint Style.commandColor "  CONFIGURATION:\n"],
        [txt "    ", Sprint Style.flagColor "config    ", txt "  ",
          Sprint Style.descriptionColor "Manage function configuration", txt "\n"],
        [txt "    ", Sprint Style.flagColor "subscribe ", txt "  ",
          Sprint Style.descriptionColor "Configure event subscriptions", txt "\n"],
        [txt "\n"],
        [Sprint Style.commandColor "  UTILITY COMMANDS:\n"],
        [txt "    ", Sprint Style.flagColor "languages ", txt "  ",
          Sprint Style.descriptionColor "List supported runtimes", txt "\n"],
        [txt "    ", Sprint Style.flagColor "templates ", txt "  ",
          Sprint Style.descriptionColor "List available templates", txt "\n"],
        [txt "    ", Sprint Style.flagColor "version   ", txt "  ",
          Sprint Style.descriptionColor "Show version information", txt "\n"],
        [txt "\n"],
        [txt "Use ", Sprint Style.exampleColor "func <command> --help",
          txt " for detailed information about each command.\n"],
        [txt "\n"]] ∧
    showWorkflowHelp [] =
      [[txt "\n"], [Sprint Style.headerColor "KNATIVE FUNCTIONS CLI\n"], [txt "\n"],
        [Sprint Style.headerColor "USAGE", txt "\n"],
        [txt "    ", Sprint Style.flagColor "func <command> [options]", txt "\n"],
        [txt "\n"]]
      ++ helpTable.flatMap (fun c => printCommandCategory c.1 c.2 [])
      ++ [[txt "Use ", Sprint Style.exampleColor "func <command> --help",
          txt " for detailed information about each command.\n"],
        [txt "\n"]] ∧
    helpTable.map (fun c => c.1) =
      ["GETTING STARTED", "DEPLOYMENT", "MANAGEMENT", "CONFIGURATION", "UTILITY COMMANDS"] ∧
    helpNames =
      [
        "create", "run", "invoke", "build", "deploy", "delete", "list", "describe", "logs",
        "config", "subscribe", "languages", "templates", "version"] ∧
    (showWorkflowHelp []).filterMap nameColumn =
      [
        "create    ", "run       ", "invoke    ", "build     ", "deploy    ", "delete    ",
        "list      ", "describe  ", "logs      ", "config    ", "subscribe ", "languages ",
        "templates ", "version   "] ∧
    (showWorkflowHelp []).filterMap nameColumn = helpNames.map (padRight 10) ∧
    helpNames.Nodup ∧
    ((showWorkflowHelp []).filterMap nameColumn).Nodup ∧
    helpNames.length = 14 ∧
    ((showWorkflowHelp []).filterMap nameColumn).length = 14 ∧
    (∀ name ∈ helpNames, name.length ≤ 10 ∧ (padRight 10 name).length = 10) ∧
    (∀ column ∈ (showWorkflowHelp []).filterMap nameColumn, column.length = 10) := by
  refine ⟨by decide, by decide, by decide, by decide, by decide, by decide, by decide, by decide,
    by decide, by decide, by decide, by decide⟩

theorem helpTable_names_unique_witness :
    "subscribe" ∈ helpNames ∧
    "subscribe".length ≤ 10 ∧ (padRight 10 "subscribe").length = 10 :=
  ⟨by decide, helpTable_names_unique.2.2.2.2.2.2.2.2.2.2.1 "subscribe" (by decide)⟩

/-- C3, as stated, fails for `runInvokeDemo`: in a directory without any marker
file and with an empty target it returns `no function to invoke` under the
title `No function to invoke`; neither the error `not in function directory`
nor the title `Not in function directory` occurs. -/
theorem runInvokeDemo_guidance_counterexample :
    (∀ f ∈ markerFiles, (fun _ => false) f = false) ∧
    (runInvokeDemo (fun _ => false) "" "\x7b\x7d" "application/json" []).err =
      some "no function to invoke" ∧
    (runInvokeDemo (fun _ => false) "" "\x7b\x7d" "application/json" []).err ≠
      some "not in function directory" ∧
    [Sprint Style.errorColor "âœ— Error: No function to invoke\n"] ∈
      (runInvokeDemo (fun _ => false) "" "\x7b\x7d" "application/json" []).out ∧
    [Sprint Style.errorColor "âœ— Error: Not in function directory\n"] ∉
      (runInvokeDemo (fun _ => false) "" "\x7b\x7d" "application/json" []).out := by
  decide

/-- C3, amended: when none of the five marker files exists, `runRunDemo` and
`runDeployDemo` return the error `not in function directory` after printing
the enhanced error titled `Not in function directory`, and `runInvokeDemo` with
an empty target returns the error `no function to invoke` after printing the
enhanced error titled `No function to invoke`; each prints exactly its title
line, its explanation line, the suggestions header and its bullets, and no call
of its success narrative. -/
theorem outside_function_directory_errors (stat : String → Bool)
    (hnone : ∀ f ∈ ["func.yaml", "package.json", "go.mod", "requirements.txt", "pom.xml"],
      stat f = false)
    (container buildFlag : Bool) (build registry address builder ns data contentType : String)
    (out : Stdout) :
    runRunDemo stat container build registry address builder out =
      ⟨out ++ [[txt "\n"],
          [Sprint Style.errorColor "âœ— Error: Not in function directory\n"],
          [txt "\n"],
          [txt "  This command must be run from within a function project directory.\n"],
          [txt "\n"],
          [Sprint Style.warningColor "ðŸ’¡ Suggestions:\n"],
          [txt "  â€¢ Run 'func-ux-demo create' to create a new function\n"],
          [txt "  â€¢ Navigate to an existing function directory\n"],
          [txt "  â€¢ Use 'func-ux-demo info' to verify function project\n"],
          [txt "\n"]],
        some "not in function directory"⟩ ∧
    runDeployDemo stat registry ns buildFlag out =
      ⟨out ++ [[txt "\n"],
          [Sprint Style.errorColor "âœ— Error: Not in function directory\n"],
          [txt "\n"],
          [txt "  This command must be run from within a function project directory.\n"],
          [txt "\n"],
          [Sprint Style.warningColor "ðŸ’¡ Suggestions:\n"],
          [txt "  â€¢ Run 'func-ux-demo create' to create a new function\n"],
          [txt "  â€¢ Navigate to an existing function directory\n"],
          [txt "\n"]],
        some "not in function directory"⟩ ∧
    runInvokeDemo stat "" data contentType out =
      ⟨out ++ [[txt "\n"],
          [Sprint Style.errorColor "âœ— Error: No function to invoke\n"],
          [txt "\n"],
          [txt "  No target specified and not in a function directory.\n"],
          [txt "\n"],
          [Sprint Style.warningColor "ðŸ’¡ Suggestions:\n"],
          [txt "  â€¢ Use --target to specify a deployed function URL\n"],
          [txt "  â€¢ Run from a function directory to invoke locally\n"],
          [txt "  â€¢ Start local function with 'func-ux-demo run'\n"],
          [txt "\n"]],
        some "no function to invoke"⟩ := by
  have hdir : isInFunctionDirectory stat = false := by
    rw [isInFunctionDirectory_eq, hnone "func.yaml" (by simp), hnone "package.json" (by simp),
      hnone "go.mod" (by simp), hnone "requirements.txt" (by simp), hnone "pom.xml" (by simp)]
    rfl
  refine ⟨?_, ?_, ?_⟩
  · simp only [runRunDemo, hdir]
    rw [showEnhancedError_append]
    exact congrArg (fun o => Result.mk (out ++ o) (some "not in function directory"))
      (by decide)
  · simp only [runDeployDemo, hdir]
    rw [showEnhancedError_append]
    exact congrArg (fun o => Result.mk (out ++ o) (some "not in function directory"))
      (by decide)
  · simp only [runInvokeDemo, hdir]
    rw [showEnhancedError_append]
    exact congrArg (fun o => Result.mk (out ++ o) (some "no function to invoke"))
      (by decide)

theorem outside_function_directory_errors_witness :
    (∀ f ∈ ["func.yaml", "package.json", "go.mod", "requirements.txt", "pom.xml"],
      (fun g => g = "README.md") f = false) ∧
    runDeployDemo (fun g => g = "README.md") "ghcr.io/myorg" "" true [] =
      ⟨[[txt "\n"],
        [Sprint Style.errorColor "âœ— Error: Not in function directory\n"],
        [txt "\n"],
        [txt "  This command must be run from within a function project directory.\n"],
        [txt "\n"],
        [Sprint Style.warningColor "ðŸ’¡ Suggestions:\n"],
        [txt "  â€¢ Run 'func-ux-demo create' to create a new function\n"],
        [txt "  â€¢ Navigate to an existing function directory\n"],
        [txt "\n"]],
        some "not in function directory"⟩ :=
  ⟨by decide,
    (outside_function_directory_errors (fun g => g = "README.md") (by decide) false true
      "auto" "ghcr.io/myorg" "localhost:8080" "pack" "" "\x7b\x7d" "application/json" []).2.1⟩

/-- C8, as stated, fails: inside a function directory `deploy` given an empty
registry value returns nil, both in the handler and through the command. -/
theorem deploy_empty_registry_counterexample :
    isInFunctionDirectory (fun f => f = "func.yaml") = true ∧
    (runDeployDemo (fun f => f = "func.yaml") "" "" true []).err = none ∧
    (deployDemoCommand (fun f => f = "func.yaml") (some "") none none []).err = none := by
  decide

/-- C8, amended: `deploy` fails when the `--registry` flag is absent from the
command line, even inside a function directory; when the flag is given, with any
value, it fails exactly when the function-directory check is false, because
`runDeployDemo` never tests the registry value. -/
theorem deployDemoCommand_error_iff (stat : String → Bool) (registry ns : Option String)
    (build : Option Bool) (out : Stdout) :
    ((deployDemoCommand stat registry ns build out).err ≠ none ↔
      (registry = none ∨ isInFunctionDirectory stat = false)) ∧
    (∀ (r nsv : String) (b : Bool),
      (runDeployDemo stat r nsv b out).err ≠ none ↔ isInFunctionDirectory stat = false) := by
  have hrun : ∀ (r nsv : String) (b : Bool),
      (runDeployDemo stat r nsv b out).err ≠ none ↔ isInFunctionDirectory stat = false := by
    intro r nsv b
    cases hd : isInFunctionDirectory stat <;> simp [runDeployDemo, hd]
  refine ⟨?_, hrun⟩
  cases registry with
  | none => simp [deployDemoCommand]
  | some r => simpa [deployDemoCommand] using hrun r (ns.getD "") (build.getD true)

/-- C6: `runErrorDemo` returns nil for every input.  After the banner, each of
the five types prints its fixed title line, its explanation and its fixed
number of suggestion bullets (5, 3, 11, 5, 14), and any other type prints the
fallback titled `Unknown error type`, explaining
`Error type '<t>' is not recognized.`, with 2 suggestion bullets. -/
theorem runErrorDemo_table (errorType : String) (out : Stdout) :
    (runErrorDemo errorType out).err = none ∧
    (runErrorDemo "missing-function" out =
      ⟨out ++ [[txt "\n", Sprint Style.warningColor "🎭", txt " Demonstrating: ",
            Sprint Style.commandColor "missing-function", txt "\n\n"],
          [txt "\n"],
          [Sprint Style.errorColor "âœ— Error: No function found in current directory\n"],
          [txt "\n"],
          [txt "  This directory does not contain an initialized function project.\n"],
          [txt "\n"],
          [Sprint Style.warningColor "ðŸ’¡ Suggestions:\n"],
          [txt "  â€¢ Create a new function:    func create --language go --template http <name>\n"],
          [txt "  â€¢ Navigate to existing function: cd /path/to/function\n"],
          [txt "  â€¢ Specify function path:     func invoke --path /path/to/function\n"],
          [txt "  â€¢ \n"],
          [txt "  â€¢ Run 'func create --help' for more information about creating functions.\n"],
          [txt "\n"]], none⟩ ∧
      ((runErrorDemo "missing-function" []).out.filter isBulletCall).length = 5) ∧
    (runErrorDemo "invalid-flag" out =
      ⟨out ++ [[txt "\n", Sprint Style.warningColor "🎭", txt " Demonstrating: ",
            Sprint Style.commandColor "invalid-flag", txt "\n\n"],
          [txt "\n"],
          [Sprint Style.errorColor "âœ— Error: Unknown flag '--invalid-flag'\n"],
          [txt "\n"],
          [txt "  The flag '--invalid-flag' is not recognized for this command.\n"],
          [txt "\n"],
          [Sprint Style.warningColor "ðŸ’¡ Suggestions:\n"],
          [txt "  â€¢ Use --help to see available flags\n"],
          [txt "  â€¢ Did you mean: --build, --builder, or --registry?\n"],
          [txt "  â€¢ Check flag spelling and format\n"],
          [txt "\n"]], none⟩ ∧
      ((runErrorDemo "invalid-flag" []).out.filter isBulletCall).length = 3) ∧
    (runErrorDemo "missing-registry" out =
      ⟨out ++ [[txt "\n", Sprint Style.warningColor "🎭", txt " Demonstrating: ",
            Sprint Style.commandColor "missing-registry", txt "\n\n"],
          [txt "\n"],
          [Sprint Style.errorColor "âœ— Error: Container registry required\n"],
          [txt "\n"],
          [txt "  A container registry is required to store function images during deployment.\n"],
          [txt "\n"],
          [Sprint Style.warningColor "ðŸ’¡ Suggestions:\n"],
          [txt "  â€¢ Command flag:    func deploy --registry docker.io/username\n"],
          [txt "  â€¢ Environment:     export FUNC_REGISTRY=docker.io/username\n"],
          [txt "  â€¢ Interactive:     func deploy --confirm\n"],
          [txt "  â€¢ \n"],
          [txt "  â€¢ Popular registry options:\n"],
          [txt "  â€¢ • Docker Hub:      docker.io/username\n"],
          [txt "  â€¢ • GitHub:          ghcr.io/username\n"],
          [txt "  â€¢ • Google Cloud:    gcr.io/project-id\n"],
          [txt "  â€¢ • Azure:           username.azurecr.io\n"],
          [txt "  â€¢ \n"],
          [txt "  â€¢ Run 'func config --help' for persistent configuration options.\n"],
          [txt "\n"]], none⟩ ∧
      ((runErrorDemo "missing-registry" []).out.filter isBulletCall).length = 11) ∧
    (runErrorDemo "flag-conflict" out =
      ⟨out ++ [[txt "\n", Sprint Style.warningColor "🎭", txt " Demonstrating: ",
            Sprint Style.commandColor "flag-conflict", txt "\n\n"],
          [txt "\n"],
          [Sprint Style.errorColor "âœ— Error: Invalid flag combination\n"],
          [txt "\n"],
          [txt "  The --builder=pack option requires container execution, but --container=false was specified.\n"],
          [txt "\n"],
          [Sprint Style.warningColor "ðŸ’¡ Suggestions:\n"],
          [txt "  â€¢ Remove --container=false:     func run --builder=pack\n"],
          [txt "  â€¢ Use host builder:             func run --container=false --builder=host\n"],
          [txt "  â€¢ Use default configuration:    func run\n"],
          [txt "  â€¢ \n"],
          [txt "  â€¢ Note: Pack and S2I builders require container execution. Use 'host' builder for non-containerized runs.\n"],
          [txt "\n"]], none⟩ ∧
      ((runErrorDemo "flag-conflict" []).out.filter isBulletCall).length = 5) ∧
    (runErrorDemo "deploy-no-function" out =
      ⟨out ++ [[txt "\n", Sprint Style.warningColor "🎭", txt " Demonstrating: ",
            Sprint Style.commandColor "deploy-no-function", txt "\n\n"],
          [txt "\n"],
          [Sprint Style.errorColor "âœ— Error: No function project found\n"],
          [txt "\n"],
          [txt "  This directory doesn't contain a function project that can be deployed.\n"],
          [txt "\n"],
          [Sprint Style.warningColor "ðŸ’¡ Suggestions:\n"],
          [txt "  â€¢ Create a new function here:     func create --language python --template http myfunction\n"],
          [txt "  â€¢ Go to existing function:       cd /path/to/your/function\n"],
          [txt "  â€¢ Deploy from specific path:     func deploy --path /path/to/function\n"],
          [txt "  â€¢ \n"],
          [txt "  â€¢ What is a function project?\n"],
          [txt "  â€¢ A function project contains your code, configuration files, and metadata that\n"],
          [txt "  â€¢ func needs to build and deploy your function.\n"],
          [txt "  â€¢ \n"],
          [txt "  â€¢ Examples of creating functions:\n"],
          [txt "  â€¢   func create --language go --template http my-go-func\n"],
          [txt "  â€¢   func create --language node --template cloudevent my-node-func\n"],
          [txt "  â€¢   func create --language python --template http my-python-func\n"],
          [txt "  â€¢ \n"],
          [txt "  â€¢ Run 'func create --help' to see all available languages and templates.\n"],
          [txt "\n"]], none⟩ ∧
      ((runErrorDemo "deploy-no-function" []).out.filter isBulletCall).length = 14) ∧
    (errorType ∉ ["missing-function", "invalid-flag", "missing-registry", "flag-conflict",
        "deploy-no-function"] →
      runErrorDemo errorType out =
        ⟨out ++ [[txt "\n", Sprint Style.warningColor "🎭", txt " Demonstrating: ",
            Sprint Style.commandColor errorType, txt "\n\n"],
          [txt "\n"],
          [Sprint Style.errorColor "âœ— Error: Unknown error type\n"],
          [txt "\n"],
          [txt ("  Error type '" ++ errorType ++ "' is not recognized.\n")],
          [txt "\n"],
          [Sprint Style.warningColor "ðŸ’¡ Suggestions:\n"],
          [txt "  â€¢ Available types: missing-function, invalid-flag, missing-registry, flag-conflict, deploy-no-function\n"],
          [txt "  â€¢ Use: func-ux-demo error-demo --help\n"],
          [txt "\n"]], none⟩ ∧
      ((runErrorDemo errorType []).out.filter isBulletCall).length = 2) := by
  refine ⟨rfl, ⟨?_, by decide⟩, ⟨?_, by decide⟩, ⟨?_, by decide⟩, ⟨?_, by decide⟩,
    ⟨?_, by decide⟩, ?_⟩
  · rw [runErrorDemo_append]
    exact congrArg (fun o => Result.mk (out ++ o) none) (by decide)
  · rw [runErrorDemo_append]
    exact congrArg (fun o => Result.mk (out ++ o) none) (by decide)
  · rw [runErrorDemo_append]
    exact congrArg (fun o => Result.mk (out ++ o) none) (by decide)
  · rw [runErrorDemo_append]
    exact congrArg (fun o => Result.mk (out ++ o) none) (by decide)
  · rw [runErrorDemo_append]
    exact congrArg (fun o => Result.mk (out ++ o) none) (by decide)
  · intro hne
    simp only [List.mem_cons, List.mem_singleton, List.not_mem_nil, or_false, not_or] at hne
    obtain ⟨h1, h2, h3, h4, h5⟩ := hne
    have hout : ∀ o : Stdout, runErrorDemo errorType o =
        ⟨o ++ [[txt "\n", Sprint Style.warningColor "🎭", txt " Demonstrating: ",
            Sprint Style.commandColor errorType, txt "\n\n"],
          [txt "\n"],
          [Sprint Style.errorColor "âœ— Error: Unknown error type\n"],
          [txt "\n"],
          [txt ("  Error type '" ++ errorType ++ "' is not recognized.\n")],
          [txt "\n"],
          [Sprint Style.warningColor "ðŸ’¡ Suggestions:\n"],
          [txt "  â€¢ Available types: missing-function, invalid-flag, missing-registry, flag-conflict, deploy-no-function\n"],
          [txt "  â€¢ Use: func-ux-demo error-demo --help\n"],
          [txt "\n"]], none⟩ := by
      intro o
      have hd : ¬ ("Error type '" ++ errorType ++ "' is not recognized." = "") := by
        intro h
        have h2 := congrArg String.data h
        simp [String.data_append] at h2
      have hs : "  " ++ ("Error type '" ++ errorType ++ "' is not recognized.") ++ "\n" =
          "  Error type '" ++ errorType ++ "' is not recognized.\n" := by
        apply String.ext
        simp [String.data_append]
      simp only [runErrorDemo, fmtPrintf, h1, h2, h3, h4, h5, reduceIte]
      rw [showEnhancedError_eq, if_neg hd, hs]
      simp [Sprint, txt]
    refine ⟨hout out, ?_⟩
    rw [hout []]
    simp [isBulletCall, txt, Sprint, String.data_append]

theorem runErrorDemo_table_witness :
    "timeout" ∉ ["missing-function", "invalid-flag", "missing-registry", "flag-conflict",
      "deploy-no-function"] ∧
    runErrorDemo "timeout" [] =
      ⟨[[txt "\n", Sprint Style.warningColor "🎭", txt " Demonstrating: ",
            Sprint Style.commandColor "timeout", txt "\n\n"],
        [txt "\n"],
        [Sprint Style.errorColor "âœ— Error: Unknown error type\n"],
        [txt "\n"],
        [txt "  Error type 'timeout' is not recognized.\n"],
        [txt "\n"],
        [Sprint Style.warningColor "ðŸ’¡ Suggestions:\n"],
        [txt "  â€¢ Available types: missing-function, invalid-flag, missing-registry, flag-conflict, deploy-no-function\n"],
        [txt "  â€¢ Use: func-ux-demo error-demo --help\n"],
        [txt "\n"]], none⟩ ∧
    ((runErrorDemo "timeout" []).out.filter isBulletCall).length = 2 :=
  ⟨by decide, by
    have h := (runErrorDemo_table "timeout" []).2.2.2.2.2.2 (by decide)
    exact ⟨h.1.trans (by decide), h.2⟩⟩

end FuncUxDemo
